import Mathlib

/-!
Shallow embedding of the ky_spider financial-data scraper.

Tables (pandas DataFrames with positional RangeIndex) are modelled as lists
of rows, each row a list of cells.  A cell is a string, a number (numbers are
modelled as exact rationals), or null (pandas NaN / Python None).
-/

namespace KySpider

/-- An exact decimal number `mant / 10 ^ exp`: the value model for the floats
the source produces (`float(...)`, `cn2an` results, `base_num * 10**12`).
Every number this program manipulates is a finite decimal, so exact decimals
model the arithmetic without floating-point rounding. -/
structure Dec where
  mant : Int
  exp : Nat
deriving DecidableEq

/-- Rational value of an exact decimal. -/
def Dec.toRat (d : Dec) : ℚ := (d.mant : ℚ) / 10 ^ d.exp

/-- Multiply an exact decimal by `10 ^ k` (the `base_num * 1000000000000`
step of the 万亿 special case, with `k = 12`). -/
def decMulPow10 (d : Dec) (k : Nat) : Dec :=
  if d.exp ≤ k then ⟨d.mant * (10 : Int) ^ (k - d.exp), 0⟩
  else ⟨d.mant, d.exp - k⟩

inductive Cell where
  | str (s : String)
  | num (d : Dec)
  | null
deriving DecidableEq

instance {ε α : Type} [DecidableEq ε] [DecidableEq α] : DecidableEq (Except ε α)
  | .ok a, .ok b =>
    if h : a = b then .isTrue (by rw [h]) else .isFalse (by simp [h])
  | .ok _, .error _ => .isFalse (by simp)
  | .error _, .ok _ => .isFalse (by simp)
  | .error a, .error b =>
    if h : a = b then .isTrue (by rw [h]) else .isFalse (by simp [h])

abbrev Df := List (List Cell)

/-- Number of columns of a frame (pandas `df.shape[1]`; frames are rectangular,
so the first row's width is the column count). -/
def dfCols (df : Df) : Nat := (df.headD []).length

/-- Model of Python `str()` on a cell, as used by `astype(str)` / `str(cell)`:
a string cell is itself, NaN prints as "nan", and a number prints via its
decimal representation (the exact numeric spelling is never relied upon). -/
def cellToPyStr : Cell → String
  | .str s => s
  | .num d => toString d.mant ++ "e-" ++ toString d.exp
  | .null => "nan"

/-- Substring test on character lists (Python `in` / `str.contains(regex=False)`). -/
def containsSub : List Char → List Char → Bool
  | hay, needle =>
    if needle.isPrefixOf hay then true
    else
      match hay with
      | [] => false
      | _ :: t => containsSub t needle

/-- Python `needle in hay` for strings. -/
def strContains (hay needle : String) : Bool :=
  containsSub hay.data needle.data

/-- Python `s.endswith(t)`. -/
def strEndsWith (s t : String) : Bool :=
  t.data.isSuffixOf s.data

/-- Python `s.strip()` (model: trim ASCII/unicode whitespace at both ends). -/
def pyStrip (s : String) : String :=
  String.mk (((s.data.dropWhile Char.isWhitespace).reverse.dropWhile Char.isWhitespace).reverse)

/-- Remove every occurrence of the two-character token 万亿, scanning left to
right without overlap: Python `s.replace('万亿', '')`. -/
def removeWanYi : List Char → List Char
  | [] => []
  | [c] => [c]
  | a :: b :: rest =>
    if a = '万' ∧ b = '亿' then removeWanYi rest
    else a :: removeWanYi (b :: rest)

def digitsToNat (ds : List Char) : Nat :=
  ds.foldl (fun n c => n * 10 + (c.toNat - 48)) 0

/-- Model of Python `float()` on plain decimal literals: optional sign, an
integer part and/or a fractional part, parsed into the exact decimal
`±(intdigits ++ fracdigits) / 10 ^ |fracdigits|`.  (Exponents and special
values are not needed by any call site we reason about.) -/
def parseFloat (s : String) : Option Dec :=
  let cs := s.data
  let signAndRest : Int × List Char :=
    match cs with
    | '-' :: r => (-1, r)
    | '+' :: r => (1, r)
    | r => (1, r)
  let sign := signAndRest.1
  let r := signAndRest.2
  let intPart := r.takeWhile (·.isDigit)
  let rest := r.dropWhile (·.isDigit)
  match rest with
  | [] =>
    if intPart.isEmpty then none
    else some ⟨sign * (digitsToNat intPart : Int), 0⟩
  | '.' :: frac =>
    if frac.all (·.isDigit) && !(intPart.isEmpty && frac.isEmpty) then
      some ⟨sign * (digitsToNat (intPart ++ frac) : Int), frac.length⟩
    else none
  | _ => none

/-! ## SectionSplitter

`src/src/scraper.py` `_split_dataframe_by_indicators` (structural suffix rule)
and `src/src/processor.py` / `src/src/table.py` `_split_dataframe_by_selector`
(explicit selector variant). -/

/-- Row is a marker row: the first column, converted with `astype(str)`,
ends with 指标 (`first_col.str.endswith('指标')`). -/
def isMarkerRow (row : List Cell) : Bool :=
  strEndsWith (cellToPyStr (row.headD .null)) "指标"

/-- Positions of marker rows, in ascending order
(`df.index[indicator_rows].tolist()` on a RangeIndex frame). -/
def indicatorIndices (df : Df) : List Nat :=
  (List.range df.length).filter (fun i => isMarkerRow (df.getD i []))

/-- `df.iloc[start:stop]` on positional indices. -/
def sliceRows (df : Df) (start stop : Nat) : Df :=
  (df.drop start).take (stop - start)

/-- The slicing loop shared by both splitter variants: each index starts a
section running up to (exclusive) the next index; the last section runs to the
end of the frame. -/
def splitAtIndices (df : Df) : List Nat → List Df
  | [] => []
  | [i] => [df.drop i]
  | i :: j :: rest => sliceRows df i j :: splitAtIndices df (j :: rest)

/-- `scraper.py` `_split_dataframe_by_indicators`: split at rows whose first
column ends with 指标; with no marker rows the whole frame is one section. -/
def splitDataframeByIndicators (df : Df) : List Df :=
  let idxs := indicatorIndices df
  if idxs.isEmpty then [df] else splitAtIndices df idxs

inductive SplitError where
  | noElements
  | noMatchingRows
deriving DecidableEq

/-- Row positions whose first column contains (substring match,
`str.contains(td_text, regex=False)`) the text of some selected element;
`sorted(list(set(split_indices)))` yields exactly the ascending filter of all
row positions matched by at least one element text. -/
def selectorMatchIndices (df : Df) (tdTexts : List String) : List Nat :=
  (List.range df.length).filter (fun i =>
    tdTexts.any (fun td => strContains (cellToPyStr ((df.getD i []).headD .null)) td))

/-- `processor.py` / `table.py` `_split_dataframe_by_selector`.  The selector
argument is `none` when no `split_row_selector` is configured; otherwise it
carries the stripped texts of the elements the selector matched in the HTML
(the BeautifulSoup `select` result, an external collaborator). -/
def splitDataframeBySelector (df : Df) (selected : Option (List String)) :
    Except SplitError (List Df) :=
  match selected with
  | none => .ok [df]
  | some tdTexts =>
    if tdTexts.isEmpty then .error .noElements
    else
      let idxs := selectorMatchIndices df tdTexts
      if idxs.isEmpty then .error .noMatchingRows
      else .ok (splitAtIndices df idxs)

/-! ## NumericNormalizer

`src/src/infrastructure/chinese_converter.py` `convert_value`,
`src/src/scraper.py` and `src/src/processor.py` / `src/src/table.py`
`_convert_chinese_numbers`.  The external `cn2an.cn2an(·, "smart")` library
call is a parameter: `some q` models a successful parse returning `q`,
`none` models the `ValueError`/`TypeError` it raises otherwise. -/

abbrev Cn2an := String → Option Dec

/-- `chinese_converter.py` `convert_value`, also the per-cell logic of
`scraper.py` `_convert_chinese_numbers`: when the text contains 万亿, strip
the token and parse the remainder with `float`, multiplying by 10^12;
otherwise delegate to cn2an.  `none` means every attempt failed and the
original value is kept. -/
def convertValue (cn2an : Cn2an) (value : String) : Option Dec :=
  if strContains value "万亿" then
    (parseFloat (String.mk (removeWanYi value.data))).map (fun d => decMulPow10 d 12)
  else cn2an value

/-- Per-cell logic of `processor.py` / `table.py` `_convert_chinese_numbers`:
"--" is skipped, cn2an is tried first, and the 万亿 special case is only a
fallback when cn2an fails. -/
def tableConvertCell (cn2an : Cn2an) (value : String) : Option Dec :=
  if value = "--" then none
  else
    match cn2an value with
    | some d => some d
    | none =>
      if strContains value "万亿" then
        (parseFloat (String.mk (removeWanYi value.data))).map (fun d => decMulPow10 d 12)
      else none

/-- One cell of the data region: NaN and empty-after-strip cells are skipped,
a successful conversion replaces the cell by the number, a failed one keeps
the original cell. -/
def convertCellInDf (cellConv : String → Option Dec) (c : Cell) : Cell :=
  match c with
  | .null => .null
  | c =>
    let s := pyStrip (cellToPyStr c)
    if s = "" then c
    else
      match cellConv s with
      | some d => .num d
      | none => c

/-- The inner column loop `for col_idx in range(1, len(df.columns))`: column 0
is never touched. -/
def convertRow (cellConv : String → Option Dec) (row : List Cell) : List Cell :=
  match row with
  | [] => []
  | c0 :: rest => c0 :: rest.map (convertCellInDf cellConv)

/-- The row loop: `startRow` rows are passed through unchanged before
conversion begins (`range(startRow, len(df))`). -/
def convertRegion (cellConv : String → Option Dec) : Nat → Df → Df
  | _, [] => []
  | 0, row :: rest => convertRow cellConv row :: convertRegion cellConv 0 rest
  | n + 1, row :: rest => row :: convertRegion cellConv n rest

/-- `scraper.py` `_convert_chinese_numbers`: rows from index 1, columns from
index 1, 万亿 tried before cn2an. -/
def scraperConvertChineseNumbers (cn2an : Cn2an) (df : Df) : Df :=
  convertRegion (convertValue cn2an) 1 df

/-- `processor.py` `_convert_chinese_numbers`: rows from index 1, columns from
index 1, cn2an tried before the 万亿 fallback, "--" skipped. -/
def processorConvertChineseNumbers (cn2an : Cn2an) (df : Df) : Df :=
  convertRegion (tableConvertCell cn2an) 1 df

/-- `table.py` `_convert_chinese_numbers`: same cell logic as `processor.py`,
but the row loop is `range(0, len(df))`, so row 0 is converted as well. -/
def tableConvertChineseNumbers (cn2an : Cn2an) (df : Df) : Df :=
  convertRegion (tableConvertCell cn2an) 0 df

/-! ## PaginationCrawler

`src/src/infrastructure/web_scraping.py` `_scrape_all_pages` (the same loop
appears in `src/src/scraper.py` `_scrape_single_url`).  The browser, an
external collaborator, is modelled by `PageEnv`: outcomes of each external
interaction at each loop step.  `advanceOk step attempt` records whether the
post-click `wait_for_function` wait at loop step `step` would succeed on its
`attempt`-th invocation; the source invokes each interaction exactly once, so
only attempt 0 is ever consulted. -/

structure PageEnv where
  /-- `page.wait_for_selector(".zyzb_table .report_table .table1")` succeeds. -/
  tableReady : Bool
  /-- `page.content()` at loop step `i`. -/
  snapshot : Nat → String
  /-- The next button exists and `is_visible()` at loop step `i`. -/
  nextVisible : Nat → Bool
  /-- `page.query_selector(".zyzb_table")` finds the table at loop step `i`. -/
  tablePresent : Nat → Bool
  /-- The post-click content-change wait at step `i`, attempt `a`, succeeds. -/
  advanceOk : Nat → Nat → Bool

inductive ScrapeError where
  | navigationTimeout
  | tableVanished
  | advanceTimeout
deriving DecidableEq

/-- The `while True` pagination loop, fuel-indexed: `none` means the fuel ran
out before the loop terminated (the source loop has no bound of its own). -/
def scrapeLoop (env : PageEnv) : Nat → Nat → List String → Option (Except ScrapeError (List String))
  | 0, _, _ => none
  | fuel + 1, step, acc =>
    let acc' := acc ++ [env.snapshot step]
    if env.nextVisible step = false then some (.ok acc')
    else if env.tablePresent step = false then some (.error .tableVanished)
    else if env.advanceOk step 0 = false then some (.error .advanceTimeout)
    else scrapeLoop env fuel (step + 1) acc'

/-- `_scrape_all_pages`: wait for the table region, then run the pagination
loop from step 0 with no accumulated snapshots. -/
def scrapeAllPages (env : PageEnv) (fuel : Nat) : Option (Except ScrapeError (List String)) :=
  if env.tableReady = false then some (.error .navigationTimeout)
  else scrapeLoop env fuel 0 []

inductive ValidationError where
  | insufficientPages
  | runawayPagination
deriving DecidableEq

/-- `src/src/validator.py` `validate_pagination_integrity`: called by
`scraper.py` `scrape_data` only after a crawl has returned its page list. -/
def validatePaginationIntegrity (totalPages : Nat) (expectedMinPages : Nat) :
    Except ValidationError Unit :=
  if totalPages < expectedMinPages then .error .insufficientPages
  else if 1000 < totalPages then .error .runawayPagination
  else .ok ()

/-! ## MultiSectionAssembler page concatenation

`pd.concat(page_tables, axis=1, ignore_index=True)` in `scraper.py`
`process_and_save_data` (identically in `processor.py`).  All page frames
carry a positional RangeIndex, so concat outer-joins their row indices: the
result has `max` row count, shorter frames padded with NaN; no exception is
raised for unequal row counts. -/

def maxRows (dfs : List Df) : Nat :=
  (dfs.map List.length).foldr max 0

/-- `pd.concat(axis=1, ignore_index=True)` on RangeIndex frames. -/
def concatHoriz (dfs : List Df) : Df :=
  (List.range (maxRows dfs)).map (fun i =>
    dfs.flatMap (fun df =>
      if i < df.length then df.getD i []
      else List.replicate (dfCols df) Cell.null))

inductive AssembleError where
  | noTables
  | emptyCombined
deriving DecidableEq

/-- The page-assembly step of `scraper.py` `process_and_save_data`: fail when
no page tables exist, concatenate horizontally, and fail
(`validate_dataframe_not_empty`, a `DataIntegrityError`) only when the
combined frame is empty. -/
def assemblePages (pages : List Df) : Except AssembleError Df :=
  if pages.isEmpty then .error .noTables
  else
    let combined := concatHoriz pages
    if combined.isEmpty then .error .emptyCombined
    else .ok combined

/-! ## CrossSourceAligner

`src/src/processor.py` `_merge_by_date_alignment`. -/

/-- The header-cell test used both when collecting dates and when mapping
columns: `if cell is not None: t = str(cell).strip(); if t: use t`.  A NaN
cell is not `None` in Python and prints as "nan", so it yields the text
"nan"; only a genuinely empty stripped text is rejected. -/
def pyHeaderText (c : Cell) : Option String :=
  match c with
  | .null => some "nan"
  | c =>
    let t := pyStrip (cellToPyStr c)
    if t = "" then none else some t

/-- Dates contributed by one frame: header row cells of columns 2 and up,
guarded by `df.shape[1] > 2 and df.shape[0] > 0`. -/
def dfDates (df : Df) : List String :=
  if 2 < dfCols df && 0 < df.length then
    ((List.range (dfCols df)).drop 2).filterMap (fun j =>
      pyHeaderText ((df.getD 0 []).getD j .null))
  else []

/-- Python string comparison `a >= b`: lexicographic by code point on the
character sequences (structural string comparison, no calendar parsing). -/
def dateGe (a b : String) : Prop := b.data ≤ a.data

instance : DecidableRel dateGe := fun a b => inferInstanceAs (Decidable (b.data ≤ a.data))

instance : IsTotal String dateGe := ⟨fun a b => le_total b.data a.data⟩

instance : IsTrans String dateGe := ⟨fun _ _ _ h1 h2 => le_trans h2 h1⟩

/-- `sorted(list(all_dates), reverse=True)`: the deduplicated union of all
frames' dates, sorted by descending plain string comparison. -/
def sortedDatesDesc (dfs : List Df) : List String :=
  ((dfs.flatMap dfDates).dedup).insertionSort dateGe

/-- `original_col_to_date`: source column positions from 2 up whose header
text is non-empty and present in the final date list, each paired with that
date, in ascending column order (Python dict insertion order). -/
def colToDate (dates : List String) (df : Df) : List (Nat × String) :=
  if 2 < dfCols df && 0 < df.length then
    ((List.range (dfCols df)).drop 2).filterMap (fun j =>
      match pyHeaderText ((df.getD 0 []).getD j .null) with
      | some t => if t ∈ dates then some (j, t) else none
      | none => none)
  else []

/-- Build one output row: start from `[None] * (2 + len(dates))`, copy the
fixed label columns, then write each mapped source column's value at
`2 + dates.index(date)`; later writes overwrite earlier ones. -/
def buildRow (dates : List String) (mapping : List (Nat × String)) (ncols : Nat)
    (row : List Cell) : List Cell :=
  let init : List Cell := List.replicate (2 + dates.length) .null
  let afterFixed :=
    (List.range (min 2 ncols)).foldl (fun acc j => acc.set j (row.getD j .null)) init
  mapping.foldl (fun acc jt =>
    if jt.1 < ncols then acc.set (2 + dates.indexOf jt.2) (row.getD jt.1 .null)
    else acc) afterFixed

/-- The per-frame, per-row body of the merge loop. -/
def mergeRows (dates : List String) (df : Df) : Df :=
  df.map (buildRow dates (colToDate dates df) (dfCols df))

/-- `_merge_by_date_alignment`: a single frame is returned unchanged;
otherwise every frame's rows are rebuilt against the aligned date axis and
appended in input order. -/
def mergeByDateAlignment (dfs : List Df) : Df :=
  if dfs.length = 1 then dfs.headD []
  else
    let dates := sortedDatesDesc dfs
    dfs.flatMap (fun df => mergeRows dates df)

/-! ## Helper lemmas -/

lemma sliceRows_append_drop (df : Df) {i j : Nat} (hij : i ≤ j) :
    sliceRows df i j ++ df.drop j = df.drop i := by
  have hj : df.drop j = (df.drop i).drop (j - i) := by
    rw [List.drop_drop]
    congr 1
    omega
  rw [sliceRows, hj, List.take_append_drop]

lemma splitAtIndices_flatten (df : Df) :
    ∀ rest i, (i :: rest).Pairwise (· ≤ ·) →
      (splitAtIndices df (i :: rest)).flatten = df.drop i := by
  intro rest
  induction rest with
  | nil => intro i _; simp [splitAtIndices]
  | cons j rest ih =>
    intro i hp
    have hij : i ≤ j := (List.pairwise_cons.mp hp).1 j (by simp)
    have htail : (j :: rest).Pairwise (· ≤ ·) := (List.pairwise_cons.mp hp).2
    calc (splitAtIndices df (i :: j :: rest)).flatten
        = sliceRows df i j ++ (splitAtIndices df (j :: rest)).flatten := by
          simp [splitAtIndices]
      _ = sliceRows df i j ++ df.drop j := by rw [ih j htail]
      _ = df.drop i := sliceRows_append_drop df hij

lemma indicatorIndices_pairwise (df : Df) :
    (indicatorIndices df).Pairwise (· ≤ ·) := by
  have h : (List.range df.length).Pairwise (· < ·) := List.pairwise_lt_range _
  exact ((h.filter _).imp fun hab => Nat.le_of_lt hab)

/-! ## C1: section partition -/

/-- C1 (counterexample): the claim says the sections produced by the section
splitter cover every row of the input, including rows preceding the first
marker row.  On the two-row table whose marker sits at row 1, the produced
sections contain only one row in total: row 0 belongs to no section, so the
sections do not partition the table's rows. -/
theorem c1_counterexample :
    (splitDataframeByIndicators [[Cell.str "a"], [Cell.str "X指标"]]).flatten
      ≠ [[Cell.str "a"], [Cell.str "X指标"]]
    ∧ ((splitDataframeByIndicators [[Cell.str "a"], [Cell.str "X指标"]]).map
        List.length).sum = 1 := by
  decide

/-- C1 (amended): the sections are contiguous, ordered, pairwise disjoint and
exhaustive over the rows from the first marker row onward — their in-order
concatenation equals the input with the rows preceding the first marker
dropped.  When no marker row exists the single section is the whole table. -/
theorem c1_sections_partition_from_first_marker (df : Df) :
    (splitDataframeByIndicators df).flatten
      = df.drop ((indicatorIndices df).headD 0) := by
  rw [splitDataframeByIndicators]
  cases h : indicatorIndices df with
  | nil => simp
  | cons i rest =>
    have hp : (i :: rest).Pairwise (· ≤ ·) := h ▸ indicatorIndices_pairwise df
    simp [splitAtIndices_flatten df rest i hp]

/-! ## C9: zero-marker behavior of the two splitter variants -/

/-- C9: with zero marker rows the structural suffix variant degrades
gracefully to a single section covering the whole table, while the selector
variant fails: when the selector matched no elements the error is
`noElements`, and when elements matched but no table row contains any of
their texts the error is `noMatchingRows` (both raised as fatal
`RuntimeError`s in the source). -/
theorem c9_zero_marker_behavior :
    (∀ df : Df, indicatorIndices df = [] → splitDataframeByIndicators df = [df])
    ∧ (∀ (df : Df) (tdTexts : List String), selectorMatchIndices df tdTexts = [] →
        ∃ e, splitDataframeBySelector df (some tdTexts) = .error e) := by
  constructor
  · intro df h
    simp [splitDataframeByIndicators, h]
  · intro df tdTexts h
    by_cases hts : tdTexts.isEmpty
    · exact ⟨.noElements, by simp [splitDataframeBySelector, hts]⟩
    · exact ⟨.noMatchingRows, by simp [splitDataframeBySelector, hts, h]⟩

/-- C9 (witness): a one-row table with no marker row yields itself as the
single section, and a selector text matching no row is fatal. -/
theorem c9_witness :
    splitDataframeByIndicators [[Cell.str "a"]] = [[[Cell.str "a"]]]
    ∧ ∃ e, splitDataframeBySelector [[Cell.str "a"]] (some ["z"]) = .error e :=
  ⟨c9_zero_marker_behavior.1 [[Cell.str "a"]] (by decide),
   c9_zero_marker_behavior.2 [[Cell.str "a"]] ["z"] (by decide)⟩

/-! ## C5: conversion region -/

lemma convertRow_headD (cellConv : String → Option Dec) (row : List Cell) :
    (convertRow cellConv row).headD .null = row.headD .null := by
  cases row <;> rfl

lemma convertRow_length (cellConv : String → Option Dec) (row : List Cell) :
    (convertRow cellConv row).length = row.length := by
  cases row <;> simp [convertRow]

lemma convertRegion_getD_headD (cellConv : String → Option Dec) :
    ∀ (df : Df) (n i : Nat),
      ((convertRegion cellConv n df).getD i []).headD .null
        = (df.getD i []).headD .null := by
  intro df
  induction df with
  | nil => intro n i; cases n <;> rfl
  | cons row rest ih =>
    intro n i
    cases n with
    | zero =>
      cases i with
      | zero => simpa [convertRegion] using convertRow_headD cellConv row
      | succ i => simpa [convertRegion] using ih 0 i
    | succ n =>
      cases i with
      | zero => simp [convertRegion]
      | succ i => simpa [convertRegion] using ih n i

lemma convertRegion_getD_length (cellConv : String → Option Dec) :
    ∀ (df : Df) (n i : Nat),
      ((convertRegion cellConv n df).getD i []).length = (df.getD i []).length := by
  intro df
  induction df with
  | nil => intro n i; cases n <;> rfl
  | cons row rest ih =>
    intro n i
    cases n with
    | zero =>
      cases i with
      | zero => simpa [convertRegion] using convertRow_length cellConv row
      | succ i => simpa [convertRegion] using ih 0 i
    | succ n =>
      cases i with
      | zero => simp [convertRegion]
      | succ i => simpa [convertRegion] using ih n i

lemma convertRegion_succ_headD (cellConv : String → Option Dec) (n : Nat) (df : Df) :
    (convertRegion cellConv (n + 1) df).headD [] = df.headD [] := by
  cases df <;> rfl

lemma convertRegion_length (cellConv : String → Option Dec) :
    ∀ (df : Df) (n : Nat), (convertRegion cellConv n df).length = df.length := by
  intro df
  induction df with
  | nil => intro n; cases n <;> rfl
  | cons row rest ih =>
    intro n
    cases n with
    | zero => simpa [convertRegion] using ih 0
    | succ n => simpa [convertRegion] using ih n

/-- C5 (counterexample): the claim says every cell of row 0 is left unchanged
by numeric normalization.  The `table.py` variant iterates rows from index 0,
so a convertible cell in row 0, column 1 is rewritten: on the table whose
header row contains 1万亿 (with cn2an failing on that text, as the source
notes it does for 万亿 strings), row 0 comes back changed. -/
theorem c5_counterexample :
    (tableConvertChineseNumbers (fun _ => none)
        [[Cell.str "A指标", Cell.str "1万亿"], [Cell.str "x", Cell.str "--"]]).headD []
      ≠ [Cell.str "A指标", Cell.str "1万亿"]
    ∧ tableConvertChineseNumbers (fun _ => none)
        [[Cell.str "A指标", Cell.str "1万亿"], [Cell.str "x", Cell.str "--"]]
      = [[Cell.str "A指标", Cell.num ⟨10 ^ 12, 0⟩],
         [Cell.str "x", Cell.str "--"]] := by
  decide

/-- C5 (amended): for every table and every cn2an behavior, the `scraper.py`
and `processor.py` variants leave row 0 and column 0 unchanged (only cells
with row index ≥ 1 and column index ≥ 1 may differ), and all variants keep
the row count and every row's width; the `table.py` variant, however,
converts every row including row 0 and only guarantees column 0 unchanged. -/
theorem c5_conversion_region (cn2an : Cn2an) (df : Df) :
    (scraperConvertChineseNumbers cn2an df).headD [] = df.headD []
    ∧ (processorConvertChineseNumbers cn2an df).headD [] = df.headD []
    ∧ (∀ i, ((scraperConvertChineseNumbers cn2an df).getD i []).headD .null
        = (df.getD i []).headD .null)
    ∧ (∀ i, ((tableConvertChineseNumbers cn2an df).getD i []).headD .null
        = (df.getD i []).headD .null)
    ∧ (tableConvertChineseNumbers cn2an df).length = df.length
    ∧ (∀ i, ((scraperConvertChineseNumbers cn2an df).getD i []).length
        = (df.getD i []).length) := by
  refine ⟨convertRegion_succ_headD _ 0 df, convertRegion_succ_headD _ 0 df,
    fun i => convertRegion_getD_headD _ df 1 i,
    fun i => convertRegion_getD_headD _ df 0 i,
    convertRegion_length _ df 0,
    fun i => convertRegion_getD_length _ df 1 i⟩

/-! ## C6: the 万亿 special case -/

lemma decMulPow10_toRat (d : Dec) (k : Nat) :
    (decMulPow10 d k).toRat = d.toRat * 10 ^ k := by
  have h10 : ((10 : ℚ) ^ d.exp) ≠ 0 := by positivity
  rw [decMulPow10]
  split
  · rename_i hle
    have hk : (10 : ℚ) ^ k = 10 ^ d.exp * 10 ^ (k - d.exp) := by
      rw [← pow_add]
      congr 1
      omega
    rw [Dec.toRat, Dec.toRat, hk]
    push_cast
    field_simp
    ring
  · rename_i hgt
    have hk : (10 : ℚ) ^ d.exp = 10 ^ (d.exp - k) * 10 ^ k := by
      rw [← pow_add]
      congr 1
      omega
    rw [Dec.toRat, Dec.toRat, hk]
    have h10k : ((10 : ℚ) ^ (d.exp - k)) ≠ 0 := by positivity
    field_simp
    ring

/-- C6: whenever a cell text contains the 万亿 token and the text with every
occurrence of the token removed parses as a decimal `d`, conversion returns
the exact decimal whose rational value is `d * 10 ^ 12`: unconditionally in
the `chinese_converter.py` / `scraper.py` variant (万亿 checked first), and
in the `processor.py` / `table.py` variant whenever cn2an rejects the text,
which the source documents it does for 万亿 strings. -/
theorem c6_wanyi_special_case (cn2an : Cn2an) (v : String) (d : Dec)
    (hw : strContains v "万亿" = true)
    (hp : parseFloat (String.mk (removeWanYi v.data)) = some d) :
    convertValue cn2an v = some (decMulPow10 d 12)
    ∧ (decMulPow10 d 12).toRat = d.toRat * 10 ^ 12
    ∧ (cn2an v = none → tableConvertCell cn2an v = some (decMulPow10 d 12)) := by
  refine ⟨by simp [convertValue, hw, hp], decMulPow10_toRat d 12, fun hn => ?_⟩
  have hv : v ≠ "--" := by
    intro h
    rw [h] at hw
    exact absurd hw (by decide)
  simp [tableConvertCell, hv, hn, hw, hp]

/-- C6 (witness): the cell text 1.5万亿 parses as the decimal 1.5 after the
token is removed and converts to the value 1.5 × 10^12. -/
theorem c6_witness :
    convertValue (fun _ => none) "1.5万亿" = some (decMulPow10 ⟨15, 1⟩ 12)
    ∧ (decMulPow10 ⟨15, 1⟩ 12).toRat = (Dec.mk 15 1).toRat * 10 ^ 12
    ∧ ((fun _ => (none : Option Dec)) "1.5万亿" = none →
        tableConvertCell (fun _ => none) "1.5万亿" = some (decMulPow10 ⟨15, 1⟩ 12)) :=
  c6_wanyi_special_case (fun _ => none) "1.5万亿" ⟨15, 1⟩ (by decide) (by decide)

/-! ## C3, C7, C8: the pagination crawl loop -/

lemma scrapeLoop_run (env : PageEnv) (k : Nat)
    (hadv : ∀ i, i < k →
      env.nextVisible i = true ∧ env.tablePresent i = true ∧ env.advanceOk i 0 = true)
    (hstop : env.nextVisible k = false) :
    ∀ (fuel start : Nat) (acc : List String), start ≤ k → k - start < fuel →
      scrapeLoop env fuel start acc
        = some (.ok (acc ++ (List.range' start (k - start + 1)).map env.snapshot)) := by
  intro fuel
  induction fuel with
  | zero => intro start acc _ h; omega
  | succ fuel ih =>
    intro start acc hsk hf
    by_cases hk : start = k
    · subst hk
      simp [scrapeLoop, hstop, List.range'_succ]
    · have hlt : start < k := Nat.lt_of_le_of_ne hsk hk
      obtain ⟨h1, h2, h3⟩ := hadv start hlt
      have step : scrapeLoop env (fuel + 1) start acc
          = scrapeLoop env fuel (start + 1) (acc ++ [env.snapshot start]) := by
        simp [scrapeLoop, h1, h2, h3]
      rw [step, ih (start + 1) (acc ++ [env.snapshot start]) (by omega) (by omega)]
      have hrange : List.range' start (k - start + 1)
          = start :: List.range' (start + 1) (k - (start + 1) + 1) := by
        have : k - start + 1 = (k - (start + 1) + 1) + 1 := by omega
        rw [this, List.range'_succ]
      rw [hrange]
      simp

/-- C3: with the table region ready, the crawl returns one snapshot per page
in page order: when the pagination control is absent from the start the
result is the single initial snapshot (`k = 0`), and when the control is
present and each click advances the content for exactly `k` steps before the
control disappears, the result is exactly the `k + 1` snapshots. -/
theorem c3_crawler_snapshot_count (env : PageEnv) (k fuel : Nat)
    (hready : env.tableReady = true)
    (hadv : ∀ i, i < k →
      env.nextVisible i = true ∧ env.tablePresent i = true ∧ env.advanceOk i 0 = true)
    (hstop : env.nextVisible k = false)
    (hfuel : k < fuel) :
    scrapeAllPages env fuel = some (.ok ((List.range (k + 1)).map env.snapshot)) := by
  rw [scrapeAllPages, hready]
  simp only [Bool.true_eq_false, if_false]
  rw [scrapeLoop_run env k hadv hstop fuel 0 [] (by omega) (by omega)]
  rw [List.range_eq_range']
  simp

/-- C3 (witness): a control visible for exactly two advances yields three
snapshots in page order. -/
theorem c3_witness :
    scrapeAllPages
      { tableReady := true, snapshot := fun i => String.mk (List.replicate i 'x'),
        nextVisible := fun i => decide (i < 2), tablePresent := fun _ => true,
        advanceOk := fun _ _ => true } 5
      = some (.ok ((List.range (2 + 1)).map
          (fun i => String.mk (List.replicate i 'x')))) :=
  c3_crawler_snapshot_count _ 2 5 rfl
    (fun i hi => ⟨by simp [hi], rfl, rfl⟩) (by decide) (by omega)

/-- C7 (counterexample): the claim says the pagination loop performs at most
1000 iterations and a crawl advancing beyond that ceiling terminates with a
fatal error.  On a run whose control stays present for 1500 successful
advances, the loop runs 1501 iterations and returns 1501 snapshots
successfully — no error of any kind is raised inside the loop. -/
theorem c7_counterexample :
    scrapeAllPages
      { tableReady := true, snapshot := fun _ => "p",
        nextVisible := fun i => decide (i < 1500), tablePresent := fun _ => true,
        advanceOk := fun _ _ => true } 2000
      = some (.ok (List.replicate 1501 "p"))
    ∧ 1000 < 1501 := by
  constructor
  · rw [scrapeAllPages]
    simp only [Bool.true_eq_false, if_false]
    rw [scrapeLoop_run _ 1500 (fun i hi => ⟨by simp [hi], rfl, rfl⟩) (by decide)
      2000 0 [] (by omega) (by omega)]
    rw [List.nil_append, List.map_const', List.length_range']
  · omega

/-- C7 (amended): the crawl loop itself is unbounded — the control staying
present for any number `k` of successful advances yields `k + 1` snapshots
with no in-loop ceiling; the 1000-page sanity ceiling is enforced only after
a crawl has already returned, by `validate_pagination_integrity` raising a
fatal error when the returned page count exceeds 1000. -/
theorem c7_post_hoc_ceiling (env : PageEnv) (k fuel : Nat)
    (hready : env.tableReady = true)
    (hadv : ∀ i, i < k →
      env.nextVisible i = true ∧ env.tablePresent i = true ∧ env.advanceOk i 0 = true)
    (hstop : env.nextVisible k = false)
    (hfuel : k < fuel) :
    scrapeAllPages env fuel = some (.ok ((List.range (k + 1)).map env.snapshot))
    ∧ (∀ n, 1000 < n → validatePaginationIntegrity n 1 = .error .runawayPagination) := by
  constructor
  · rw [scrapeAllPages, hready]
    simp only [Bool.true_eq_false, if_false]
    rw [scrapeLoop_run env k hadv hstop fuel 0 [] (by omega) (by omega)]
    rw [List.range_eq_range']
    simp
  · intro n hn
    rw [validatePaginationIntegrity]
    have h1 : ¬ n < 1 := by omega
    simp [h1, hn]

/-- C7 (amended, witness): 1500 successful advances crawl to completion, and
the post-hoc validator rejects the count 1501. -/
theorem c7_witness :
    scrapeAllPages
      { tableReady := true, snapshot := fun _ => "p",
        nextVisible := fun i => decide (i < 1500), tablePresent := fun _ => true,
        advanceOk := fun _ _ => true } 2000
      = some (.ok ((List.range (1500 + 1)).map (fun _ => "p")))
    ∧ (∀ n, 1000 < n → validatePaginationIntegrity n 1 = .error .runawayPagination) :=
  c7_post_hoc_ceiling _ 1500 2000 rfl
    (fun i hi => ⟨by simp [hi], rfl, rfl⟩) (by decide) (by omega)

/-- C8 (counterexample): the claim says a transient interaction failure that
would succeed within the retry budget (default 3) does not abort the run.
On a run whose first advance wait fails once but would succeed on its second
attempt, the crawl aborts immediately with the advance-timeout error
(re-raised as `ScrapingException`): no retry is ever attempted. -/
theorem c8_counterexample :
    scrapeAllPages
      { tableReady := true, snapshot := fun _ => "p", nextVisible := fun _ => true,
        tablePresent := fun _ => true, advanceOk := fun _ a => decide (0 < a) } 10
      = some (.error .advanceTimeout)
    ∧ PageEnv.advanceOk
      { tableReady := true, snapshot := fun _ => "p", nextVisible := fun _ => true,
        tablePresent := fun _ => true, advanceOk := fun _ a => decide (0 < a) } 0 1
      = true := by
  decide

/-- C8 (amended): no external interaction is retried: each is attempted
exactly once, and the very first failure of an advance wait aborts the whole
crawl with the error propagated, regardless of whether any later attempt
would have succeeded (the conclusion holds for every behavior of attempts
one and beyond). -/
theorem c8_no_retry (env : PageEnv) (fuel : Nat)
    (hfuel : 0 < fuel)
    (hready : env.tableReady = true)
    (hnext : env.nextVisible 0 = true)
    (htable : env.tablePresent 0 = true)
    (hadv : env.advanceOk 0 0 = false) :
    scrapeAllPages env fuel = some (.error .advanceTimeout) := by
  cases fuel with
  | zero => omega
  | succ fuel =>
    rw [scrapeAllPages, hready]
    simp only [Bool.true_eq_false, if_false]
    simp [scrapeLoop, hnext, htable, hadv]

/-- C8 (amended, witness): the first-attempt advance failure aborts. -/
theorem c8_witness :
    scrapeAllPages
      { tableReady := true, snapshot := fun _ => "q", nextVisible := fun _ => true,
        tablePresent := fun _ => true, advanceOk := fun _ a => decide (0 < a) } 7
      = some (.error .advanceTimeout) :=
  c8_no_retry _ 7 (by omega) rfl rfl rfl (by decide)

/-! ## C4: page assembly and row counts -/

/-- C4 (counterexample): the claim says two pages with unequal row counts
make assembly fail with `TableStructureError`.  On a 2-row page and a 3-row
page, `pd.concat(axis=1, ignore_index=True)` outer-joins the row indices:
assembly succeeds, returning a 3-row frame whose missing cells are null —
no row-count check exists and no error is raised. -/
theorem c4_counterexample :
    ([[Cell.str "a"], [Cell.str "b"]] : Df).length
        ≠ ([[Cell.str "c"], [Cell.str "e"], [Cell.str "g"]] : Df).length
    ∧ assemblePages [[[Cell.str "a"], [Cell.str "b"]],
        [[Cell.str "c"], [Cell.str "e"], [Cell.str "g"]]]
      = .ok [[Cell.str "a", Cell.str "c"], [Cell.str "b", Cell.str "e"],
             [Cell.null, Cell.str "g"]] := by
  decide

/-- C4 (amended): assembly never fails on a row-count mismatch: for every
non-empty page list whose maximal page row count is positive, assembly
succeeds and returns the horizontal concatenation, whose row count is the
maximum of the pages' row counts (shorter pages are padded with nulls);
the only failures are an empty page list and an empty combined frame. -/
theorem c4_concat_pads_with_null (pages : List Df)
    (hne : pages ≠ []) (hrows : 0 < maxRows pages) :
    assemblePages pages = .ok (concatHoriz pages)
    ∧ (concatHoriz pages).length = maxRows pages := by
  have hlen : (concatHoriz pages).length = maxRows pages := by
    rw [concatHoriz, List.length_map, List.length_range]
  refine ⟨?_, hlen⟩
  rw [assemblePages]
  have h1 : pages.isEmpty = false := by
    cases pages with
    | nil => exact absurd rfl hne
    | cons p ps => rfl
  have h2 : (concatHoriz pages).isEmpty = false := by
    cases hc : concatHoriz pages with
    | nil =>
      rw [hc] at hlen
      simp at hlen
      omega
    | cons a l => rfl
  simp [h1, h2]

/-- C4 (amended, witness): the 2-row/3-row pair assembles successfully into
a 3-row frame. -/
theorem c4_witness :
    assemblePages [[[Cell.str "a"], [Cell.str "b"]],
        [[Cell.str "c"], [Cell.str "e"], [Cell.str "g"]]]
      = .ok (concatHoriz [[[Cell.str "a"], [Cell.str "b"]],
        [[Cell.str "c"], [Cell.str "e"], [Cell.str "g"]]])
    ∧ (concatHoriz [[[Cell.str "a"], [Cell.str "b"]],
        [[Cell.str "c"], [Cell.str "e"], [Cell.str "g"]]]).length
      = maxRows [[[Cell.str "a"], [Cell.str "b"]],
        [[Cell.str "c"], [Cell.str "e"], [Cell.str "g"]]] :=
  c4_concat_pads_with_null _ (by decide) (by decide)

/-! ## C2, C10: cross-source alignment -/

lemma foldl_length_eq {β : Type} (step : List Cell → β → List Cell)
    (h : ∀ acc b, (step acc b).length = acc.length) :
    ∀ (xs : List β) (init : List Cell), (xs.foldl step init).length = init.length := by
  intro xs
  induction xs with
  | nil => intro init; rfl
  | cons b xs ih => intro init; rw [List.foldl_cons, ih, h]

lemma buildRow_length (dates : List String) (mapping : List (Nat × String))
    (ncols : Nat) (row : List Cell) :
    (buildRow dates mapping ncols row).length = 2 + dates.length := by
  rw [buildRow]
  rw [foldl_length_eq _ (fun acc jt => by split <;> simp)]
  rw [foldl_length_eq _ (fun acc j => by simp)]
  simp

lemma length_flatMap_sum {α : Type} (f : α → Df) (l : List α) :
    (l.flatMap f).length = (l.map (fun a => (f a).length)).sum := by
  induction l with
  | nil => rfl
  | cons a l ih => simp [List.flatMap_cons, ih]

lemma sortedDatesDesc_perm_dedup (dfs : List Df) :
    (sortedDatesDesc dfs).Perm ((dfs.flatMap dfDates).dedup) :=
  List.perm_insertionSort dateGe _

lemma sortedDatesDesc_nodup (dfs : List Df) : (sortedDatesDesc dfs).Nodup :=
  (sortedDatesDesc_perm_dedup dfs).nodup_iff.mpr (List.nodup_dedup _)

lemma sortedDatesDesc_length (dfs : List Df) :
    (sortedDatesDesc dfs).length = (dfs.flatMap dfDates).toFinset.card := by
  rw [(sortedDatesDesc_perm_dedup dfs).length_eq, List.card_toFinset]

lemma mergeByDateAlignment_of_two_le (dfs : List Df) (h2 : 2 ≤ dfs.length) :
    mergeByDateAlignment dfs = dfs.flatMap (fun df => mergeRows (sortedDatesDesc dfs) df) := by
  rw [mergeByDateAlignment, if_neg (by omega)]

/-- C2: for two or more aligned tables, every output row has exactly
`2 + |union of period identifiers across all inputs|` cells, the aligned
period axis is the deduplicated union (each identifier kept exactly once,
none dropped) ordered by descending plain string comparison, and the output
carries exactly one row per input row, per input, in input order. -/
theorem c2_aligned_shape (dfs : List Df) (h2 : 2 ≤ dfs.length) :
    (∀ row ∈ mergeByDateAlignment dfs,
      row.length = 2 + (dfs.flatMap dfDates).toFinset.card)
    ∧ List.Sorted dateGe (sortedDatesDesc dfs)
    ∧ (sortedDatesDesc dfs).Nodup
    ∧ (sortedDatesDesc dfs).length = (dfs.flatMap dfDates).toFinset.card
    ∧ (mergeByDateAlignment dfs).length = (dfs.map List.length).sum := by
  refine ⟨?_, List.sorted_insertionSort dateGe _, sortedDatesDesc_nodup dfs,
    sortedDatesDesc_length dfs, ?_⟩
  · intro row hrow
    rw [mergeByDateAlignment_of_two_le dfs h2] at hrow
    obtain ⟨df, _, hmem⟩ := List.mem_flatMap.mp hrow
    obtain ⟨r, _, hr⟩ := List.mem_map.mp hmem
    rw [← hr, buildRow_length, sortedDatesDesc_length]
  · rw [mergeByDateAlignment_of_two_le dfs h2, length_flatMap_sum]
    congr 1
    apply List.map_congr_left
    intro df _
    rw [mergeRows, List.length_map]

/-- C2 (witness): two single-period tables with distinct periods align into
a four-row output whose rows all have 2 + 2 cells. -/
theorem c2_witness :
    (∀ row ∈ mergeByDateAlignment
        [[[Cell.str "t", Cell.str "l", Cell.str "2023-12-31"],
          [Cell.str "A", Cell.str "x", Cell.str "1.5万"]],
         [[Cell.str "t", Cell.str "l", Cell.str "2024-06-30"],
          [Cell.str "B", Cell.str "y", Cell.str "2亿"]]],
      row.length = 2 + (([[[Cell.str "t", Cell.str "l", Cell.str "2023-12-31"],
          [Cell.str "A", Cell.str "x", Cell.str "1.5万"]],
         [[Cell.str "t", Cell.str "l", Cell.str "2024-06-30"],
          [Cell.str "B", Cell.str "y", Cell.str "2亿"]]] : List Df).flatMap
            dfDates).toFinset.card)
    ∧ List.Sorted dateGe (sortedDatesDesc
        [[[Cell.str "t", Cell.str "l", Cell.str "2023-12-31"],
          [Cell.str "A", Cell.str "x", Cell.str "1.5万"]],
         [[Cell.str "t", Cell.str "l", Cell.str "2024-06-30"],
          [Cell.str "B", Cell.str "y", Cell.str "2亿"]]])
    ∧ (sortedDatesDesc
        [[[Cell.str "t", Cell.str "l", Cell.str "2023-12-31"],
          [Cell.str "A", Cell.str "x", Cell.str "1.5万"]],
         [[Cell.str "t", Cell.str "l", Cell.str "2024-06-30"],
          [Cell.str "B", Cell.str "y", Cell.str "2亿"]]]).Nodup
    ∧ (sortedDatesDesc
        [[[Cell.str "t", Cell.str "l", Cell.str "2023-12-31"],
          [Cell.str "A", Cell.str "x", Cell.str "1.5万"]],
         [[Cell.str "t", Cell.str "l", Cell.str "2024-06-30"],
          [Cell.str "B", Cell.str "y", Cell.str "2亿"]]]).length
      = (([[[Cell.str "t", Cell.str "l", Cell.str "2023-12-31"],
          [Cell.str "A", Cell.str "x", Cell.str "1.5万"]],
         [[Cell.str "t", Cell.str "l", Cell.str "2024-06-30"],
          [Cell.str "B", Cell.str "y", Cell.str "2亿"]]] : List Df).flatMap
            dfDates).toFinset.card
    ∧ (mergeByDateAlignment
        [[[Cell.str "t", Cell.str "l", Cell.str "2023-12-31"],
          [Cell.str "A", Cell.str "x", Cell.str "1.5万"]],
         [[Cell.str "t", Cell.str "l", Cell.str "2024-06-30"],
          [Cell.str "B", Cell.str "y", Cell.str "2亿"]]]).length
      = (([[[Cell.str "t", Cell.str "l", Cell.str "2023-12-31"],
          [Cell.str "A", Cell.str "x", Cell.str "1.5万"]],
         [[Cell.str "t", Cell.str "l", Cell.str "2024-06-30"],
          [Cell.str "B", Cell.str "y", Cell.str "2亿"]]] : List Df).map
            List.length).sum :=
  c2_aligned_shape _ (by decide)

lemma indexOf_ne_of_ne {dates : List String} {t q : String}
    (ht : t ∈ dates) (hq : q ≠ t) : dates.indexOf q ≠ dates.indexOf t := by
  by_cases hmem : q ∈ dates
  · exact fun h => hq ((List.indexOf_inj hmem ht).mp h)
  · have h1 : dates.indexOf q = dates.length := List.indexOf_eq_length.mpr hmem
    have h2 : dates.indexOf t < dates.length := List.indexOf_lt_length.mpr ht
    omega

lemma mergeFold_getD_of_no_entry (dates : List String)
    (ncols : Nat) (row : List Cell) (t : String) (ht : t ∈ dates) :
    ∀ (rest : List (Nat × String)) (acc : List Cell),
      (∀ p ∈ rest, p.2 ≠ t) →
      (rest.foldl (fun acc jt =>
          if jt.1 < ncols then acc.set (2 + dates.indexOf jt.2) (row.getD jt.1 .null)
          else acc) acc).getD (2 + dates.indexOf t) .null
        = acc.getD (2 + dates.indexOf t) .null := by
  intro rest
  induction rest with
  | nil => intro acc _; rfl
  | cons p rest ih =>
    intro acc hne
    rw [List.foldl_cons, ih _ (fun q hq => hne q (List.mem_cons_of_mem p hq))]
    split
    · have hidx : dates.indexOf p.2 ≠ dates.indexOf t :=
        indexOf_ne_of_ne ht (hne p (List.mem_cons_self p rest))
      simp only [List.getD_eq_getElem?_getD]
      rw [List.getElem?_set_ne (by omega)]
    · rfl

lemma mergeFold_getD_last (dates : List String)
    (ncols : Nat) (row : List Cell) (t : String) (ht : t ∈ dates) :
    ∀ (mapping : List (Nat × String)) (acc : List Cell),
      acc.length = 2 + dates.length →
      (∀ p ∈ mapping, p.1 < ncols) →
      ∀ j, (mapping.filter (fun p => p.2 == t)).getLast? = some (j, t) →
      (mapping.foldl (fun acc jt =>
          if jt.1 < ncols then acc.set (2 + dates.indexOf jt.2) (row.getD jt.1 .null)
          else acc) acc).getD (2 + dates.indexOf t) .null
        = row.getD j .null := by
  intro mapping
  induction mapping with
  | nil => intro acc _ _ j hlast; simp at hlast
  | cons p rest ih =>
    intro acc hlen hwf j hlast
    rw [List.filter_cons] at hlast
    rw [List.foldl_cons]
    by_cases hrest : rest.filter (fun p => p.2 == t) = []
    · rw [hrest] at hlast
      by_cases hp : p.2 = t
      · rw [if_pos (by simpa using hp)] at hlast
        have hpj : p = (j, t) := by simpa using hlast
        have hplt : p.1 < ncols := hwf p (List.mem_cons_self p rest)
        have hnoentry : ∀ q ∈ rest, q.2 ≠ t := by
          intro q hq
          simpa using List.filter_eq_nil_iff.mp hrest q hq
        rw [mergeFold_getD_of_no_entry dates ncols row t ht rest _ hnoentry]
        rw [if_pos hplt, hpj]
        have hbound : 2 + dates.indexOf t < acc.length := by
          have := List.indexOf_lt_length.mpr ht
          omega
        rw [List.getD_eq_getElem?_getD, List.getElem?_set_self hbound]
        rfl
      · rw [if_neg (by simpa using hp)] at hlast
        simp at hlast
    · have hlast' : (rest.filter (fun p => p.2 == t)).getLast? = some (j, t) := by
        obtain ⟨c, l', hcl⟩ : ∃ c l', rest.filter (fun p => p.2 == t) = c :: l' := by
          cases hfe : rest.filter (fun p => p.2 == t) with
          | nil => exact absurd hfe hrest
          | cons c l' => exact ⟨c, l', rfl⟩
        split at hlast
        · rwa [hcl, List.getLast?_cons_cons, ← hcl] at hlast
        · exact hlast
      have hlen' : ((if p.1 < ncols
          then acc.set (2 + dates.indexOf p.2) (row.getD p.1 .null) else acc)).length
          = 2 + dates.length := by
        split <;> simp [hlen]
      exact ih _ hlen' (fun q hq => hwf q (List.mem_cons_of_mem p hq)) j hlast'

lemma colToDate_mem (dates : List String) (df : Df) :
    ∀ p ∈ colToDate dates df, p.1 < dfCols df ∧ p.2 ∈ dates := by
  intro p hp
  rw [colToDate] at hp
  split at hp
  · obtain ⟨j, hj, hf⟩ := List.mem_filterMap.mp hp
    have hjlt : j < dfCols df :=
      List.mem_range.mp (List.drop_subset 2 _ hj)
    cases hh : pyHeaderText ((df.getD 0 []).getD j .null) with
    | none => rw [hh] at hf; simp at hf
    | some u =>
      rw [hh] at hf
      have hf' : (if u ∈ dates then some (j, u) else none) = some p := hf
      by_cases hu : u ∈ dates
      · rw [if_pos hu] at hf'
        obtain ⟨h1, h2⟩ : p.1 = j ∧ p.2 = u := by
          cases p
          simpa using hf'.symm
        rw [h1, h2]
        exact ⟨hjlt, hu⟩
      · rw [if_neg hu] at hf'
        simp at hf'
  · simp at hp

/-- C10: when one input table carries two or more period columns bearing the
same period identifier, the identifier occurs exactly once on the aligned
axis, the table's transformed rows land in the output, and the single output
cell for that identifier holds the value of the duplicate source column
processed last (the rightmost one) — earlier duplicates are silently
overwritten. -/
theorem c10_duplicate_period_last_wins (dfs : List Df) (df : Df)
    (row : List Cell) (t : String) (j : Nat)
    (h2 : 2 ≤ dfs.length) (hdf : df ∈ dfs) (hrow : row ∈ df)
    (hlast : ((colToDate (sortedDatesDesc dfs) df).filter
        (fun p => p.2 == t)).getLast? = some (j, t)) :
    (sortedDatesDesc dfs).count t = 1
    ∧ buildRow (sortedDatesDesc dfs) (colToDate (sortedDatesDesc dfs) df)
        (dfCols df) row ∈ mergeByDateAlignment dfs
    ∧ (buildRow (sortedDatesDesc dfs) (colToDate (sortedDatesDesc dfs) df)
        (dfCols df) row).getD (2 + (sortedDatesDesc dfs).indexOf t) .null
      = row.getD j .null := by
  have hmemfilter : (j, t) ∈ (colToDate (sortedDatesDesc dfs) df).filter
      (fun p => p.2 == t) := List.mem_of_getLast?_eq_some hlast
  have hmem : (j, t) ∈ colToDate (sortedDatesDesc dfs) df :=
    List.mem_of_mem_filter hmemfilter
  have ht : t ∈ sortedDatesDesc dfs :=
    (colToDate_mem (sortedDatesDesc dfs) df (j, t) hmem).2
  refine ⟨List.count_eq_one_of_mem (sortedDatesDesc_nodup dfs) ht, ?_, ?_⟩
  · rw [mergeByDateAlignment_of_two_le dfs h2]
    exact List.mem_flatMap.mpr ⟨df, hdf, List.mem_map_of_mem _ hrow⟩
  · rw [buildRow]
    have hinit : ((List.range (min 2 (dfCols df))).foldl
        (fun acc j => acc.set j (row.getD j .null))
        (List.replicate (2 + (sortedDatesDesc dfs).length) Cell.null)).length
        = 2 + (sortedDatesDesc dfs).length := by
      rw [foldl_length_eq _ (fun acc j => by simp)]
      simp
    exact mergeFold_getD_last (sortedDatesDesc dfs)
      (dfCols df) row t ht (colToDate (sortedDatesDesc dfs) df) _ hinit
      (fun p hp => (colToDate_mem (sortedDatesDesc dfs) df p hp).1) j hlast

/-- C10 (witness): a table with two 2024 columns, aligned with a second
table, maps its rows' 2024 output cell to the value of its column 3 (the
rightmost duplicate), and 2024 occurs once on the axis. -/
theorem c10_witness :
    (sortedDatesDesc
      [[[Cell.str "T", Cell.str "L", Cell.str "2024", Cell.str "2024"],
        [Cell.str "a", Cell.str "b", Cell.str "1", Cell.str "2"]],
       [[Cell.str "T2", Cell.str "L2", Cell.str "2023"],
        [Cell.str "c", Cell.str "d", Cell.str "3"]]]).count "2024" = 1
    ∧ buildRow (sortedDatesDesc
        [[[Cell.str "T", Cell.str "L", Cell.str "2024", Cell.str "2024"],
          [Cell.str "a", Cell.str "b", Cell.str "1", Cell.str "2"]],
         [[Cell.str "T2", Cell.str "L2", Cell.str "2023"],
          [Cell.str "c", Cell.str "d", Cell.str "3"]]])
        (colToDate (sortedDatesDesc
          [[[Cell.str "T", Cell.str "L", Cell.str "2024", Cell.str "2024"],
            [Cell.str "a", Cell.str "b", Cell.str "1", Cell.str "2"]],
           [[Cell.str "T2", Cell.str "L2", Cell.str "2023"],
            [Cell.str "c", Cell.str "d", Cell.str "3"]]])
          [[Cell.str "T", Cell.str "L", Cell.str "2024", Cell.str "2024"],
           [Cell.str "a", Cell.str "b", Cell.str "1", Cell.str "2"]])
        (dfCols [[Cell.str "T", Cell.str "L", Cell.str "2024", Cell.str "2024"],
          [Cell.str "a", Cell.str "b", Cell.str "1", Cell.str "2"]])
        [Cell.str "a", Cell.str "b", Cell.str "1", Cell.str "2"]
      ∈ mergeByDateAlignment
        [[[Cell.str "T", Cell.str "L", Cell.str "2024", Cell.str "2024"],
          [Cell.str "a", Cell.str "b", Cell.str "1", Cell.str "2"]],
         [[Cell.str "T2", Cell.str "L2", Cell.str "2023"],
          [Cell.str "c", Cell.str "d", Cell.str "3"]]]
    ∧ (buildRow (sortedDatesDesc
        [[[Cell.str "T", Cell.str "L", Cell.str "2024", Cell.str "2024"],
          [Cell.str "a", Cell.str "b", Cell.str "1", Cell.str "2"]],
         [[Cell.str "T2", Cell.str "L2", Cell.str "2023"],
          [Cell.str "c", Cell.str "d", Cell.str "3"]]])
        (colToDate (sortedDatesDesc
          [[[Cell.str "T", Cell.str "L", Cell.str "2024", Cell.str "2024"],
            [Cell.str "a", Cell.str "b", Cell.str "1", Cell.str "2"]],
           [[Cell.str "T2", Cell.str "L2", Cell.str "2023"],
            [Cell.str "c", Cell.str "d", Cell.str "3"]]])
          [[Cell.str "T", Cell.str "L", Cell.str "2024", Cell.str "2024"],
           [Cell.str "a", Cell.str "b", Cell.str "1", Cell.str "2"]])
        (dfCols [[Cell.str "T", Cell.str "L", Cell.str "2024", Cell.str "2024"],
          [Cell.str "a", Cell.str "b", Cell.str "1", Cell.str "2"]])
        [Cell.str "a", Cell.str "b", Cell.str "1", Cell.str "2"]).getD
        (2 + (sortedDatesDesc
          [[[Cell.str "T", Cell.str "L", Cell.str "2024", Cell.str "2024"],
            [Cell.str "a", Cell.str "b", Cell.str "1", Cell.str "2"]],
           [[Cell.str "T2", Cell.str "L2", Cell.str "2023"],
            [Cell.str "c", Cell.str "d", Cell.str "3"]]]).indexOf "2024") .null
      = ([Cell.str "a", Cell.str "b", Cell.str "1", Cell.str "2"] : List Cell).getD 3 .null :=
  c10_duplicate_period_last_wins
    [[[Cell.str "T", Cell.str "L", Cell.str "2024", Cell.str "2024"],
      [Cell.str "a", Cell.str "b", Cell.str "1", Cell.str "2"]],
     [[Cell.str "T2", Cell.str "L2", Cell.str "2023"],
      [Cell.str "c", Cell.str "d", Cell.str "3"]]]
    [[Cell.str "T", Cell.str "L", Cell.str "2024", Cell.str "2024"],
     [Cell.str "a", Cell.str "b", Cell.str "1", Cell.str "2"]]
    [Cell.str "a", Cell.str "b", Cell.str "1", Cell.str "2"] "2024" 3
    (by decide) (by decide) (by decide) (by decide)

end KySpider
